import Mathlib

/-!
# Verification of the Azure storage driver (`src/storage/azure/storage.c`)

A shallow embedding of the request-authentication engine and the paginated
listing/deletion pipeline of the Azure storage driver, together with proofs
of the frozen claims about it.

Modelling conventions:
* C strings are Lean `String`s; the external string collaborators
  (`strSub`, `strSubN`, `strSize`) are modelled character-wise.
* `HttpHeader`/`HttpQuery` are association lists of key/value pairs; their
  `httpHeaderList`/`httpQueryList` accessors return the keys sorted
  ascending, as the http collaborator does.
* Network exchanges are modelled with oracles: a function or list supplying
  the response(s) the server would return.  "Issued" requests appear as
  events in an explicit trace so that request counts and pipelining depth
  are statable.
* Cryptographic primitives (HMAC-SHA256, base64) are out-of-scope
  collaborators and are universally quantified function parameters.
-/

namespace Azure

/-! ## String collaborators (`common/type/string.c` interface) -/

/-- `strSize`: length of a string (modelled character-wise). -/
def strSize (s : String) : Nat := s.data.length

/-- `strSub(s, start)`: substring from `start` to the end. -/
def strSub (s : String) (start : Nat) : String := ⟨s.data.drop start⟩

/-- `strSubN(s, start, len)`: substring of length `len` starting at `start`. -/
def strSubN (s : String) (start len : Nat) : String := ⟨(s.data.drop start).take len⟩

/-- `strBeginsWithZ`: does `s` begin with prefix `p`? -/
def strBeginsWith (s p : String) : Bool := p.data.isPrefixOf s.data

/-! ## Header and query collaborators (`common/io/http` interface)

Both `HttpHeader` and `HttpQuery` are key/value stores.  `put` replaces an
existing value, `add` is only used on fresh keys in this driver.  The key
lists returned by `httpHeaderList`/`httpQueryList` are sorted ascending. -/

abbrev KvList := List (String × String)

/-- `kvGet`: look up a key. -/
def kvGet (kv : KvList) (k : String) : Option String :=
  match kv with
  | [] => none
  | (k', v) :: rest => if k' = k then some v else kvGet rest k

/-- `kvPut`: replace the value of `k` if present, else append the pair. -/
def kvPut (kv : KvList) (k v : String) : KvList :=
  match kv with
  | [] => [(k, v)]
  | (k', v') :: rest => if k' = k then (k, v) :: rest else (k', v') :: kvPut rest k v

/-- Insert a string into a `<`-sorted list of strings. -/
def sortedInsert (s : String) : List String → List String
  | [] => [s]
  | t :: rest => if s < t then s :: t :: rest else t :: sortedInsert s rest

/-- Sort a list of strings ascending (insertion sort, mirroring
`strLstSort(..., sortOrderAsc)`). -/
def sortStrings : List String → List String
  | [] => []
  | s :: rest => sortedInsert s (sortStrings rest)

/-- `httpHeaderList`/`httpQueryList`: the keys of the store, sorted ascending. -/
def kvKeyList (kv : KvList) : List String := sortStrings (kv.map Prod.fst)

/-! ## Response validation (`storageAzureResponse`, lines 341-369) -/

/-- `httpResponseCodeOk` (http collaborator): status code is in the 2xx class. -/
def httpResponseCodeOk (code : Nat) : Bool := code / 100 == 2

/-- `HTTP_RESPONSE_CODE_NOT_FOUND`. -/
def HTTP_RESPONSE_CODE_NOT_FOUND : Nat := 404

/-- `storageAzureResponse`: await a response with status `code`.  Errors via
`httpRequestError` unless the code is 2xx, or is 404 while the caller passed
`.allowMissing = true`; on the non-error paths the response is returned. -/
def storageAzureResponse (code : Nat) (allowMissing : Bool) : Except Unit Nat :=
  if !httpResponseCodeOk code && (!allowMissing || code ≠ HTTP_RESPONSE_CODE_NOT_FOUND) then
    .error ()
  else
    .ok code

/-! ## HTTP verb and header name constants (`common/io/http` interface) -/

def HTTP_VERB_GET : String := "GET"

def HTTP_VERB_HEAD : String := "HEAD"

def HTTP_VERB_DELETE : String := "DELETE"

def HTTP_HEADER_AUTHORIZATION : String := "authorization"

def HTTP_HEADER_CONTENT_LENGTH : String := "content-length"

def HTTP_HEADER_CONTENT_MD5 : String := "content-md5"

def HTTP_HEADER_DATE : String := "date"

def HTTP_HEADER_HOST : String := "host"

def HTTP_HEADER_RANGE : String := "range"

def HTTP_HEADER_LAST_MODIFIED : String := "last-modified"

/-- `AZURE_HEADER_VERSION_STR` ("x-ms-version"). -/
def AZURE_HEADER_VERSION : String := "x-ms-version"

/-- `AZURE_HEADER_VERSION_SHARED_VALUE_STR`. -/
def AZURE_HEADER_VERSION_SHARED_VALUE : String := "2019-12-12"

/-- `AZURE_HEADER_VERSION_AUTO_VALUE_STR`. -/
def AZURE_HEADER_VERSION_AUTO_VALUE : String := "2024-08-04"

/-- `AZURE_QUERY_MARKER_STR`. -/
def AZURE_QUERY_MARKER : String := "marker"

/-- `httpQueryMerge(q, other)`: add every key of `other` into `q`
(keys of `other` visited in its sorted key order). -/
def httpQueryMerge (q other : KvList) : KvList :=
  (kvKeyList other).foldl (fun acc k => kvPut acc k ((kvGet other k).getD "")) q

/-! ## Driver state (`struct StorageAzure`, lines 77-102) -/

/-- `StorageAzureKeyType`: the three mutually exclusive authentication modes. -/
inductive StorageAzureKeyType
  | shared
  | auto
  | sas
deriving DecidableEq, Repr

/-- `StorageAzureUriStyle`. -/
inductive StorageAzureUriStyle
  | host
  | path
deriving DecidableEq, Repr

/-- The driver state.  Out-of-scope handles (http clients, redact lists) are
omitted; `httpClientTimeoutMs` stands for `httpClientTimeout(this->httpClient)`
in milliseconds.  Key bytes are `List Nat`.  `accessToken` is `none` while the
C field is still NULL; `accessTokenExpirationTime` is a `time_t` modelled as
`Int`, zero-initialized by the constructor's compound literal. -/
structure StorageAzure where
  container : String
  account : String
  host : String
  pathPrefix : String
  blockSize : Nat
  tag : Option String
  keyType : StorageAzureKeyType
  sharedKey : Option (List Nat)
  sasKey : Option KvList
  httpClientTimeoutMs : Nat
  fileId : Nat
  accessToken : Option String
  accessTokenExpirationTime : Int
deriving DecidableEq, Repr

/-- `storageAzureNew` (lines 794-895): bind configuration to a fresh driver
state.  External decodings are supplied by the caller: `base64DecodedKey` is
`bufNewDecode(encodingBase64, key)` (used only for shared mode) and
`sasParsedKey` is `httpQueryNewStr(key)` (used only for SAS mode);
`randomFileId` is the value produced by `cryptoRandomBytes` read as a
`uint64_t`. -/
def storageAzureNew (container account : String) (keyType : StorageAzureKeyType)
    (base64DecodedKey : List Nat) (sasParsedKey : KvList) (blockSize : Nat)
    (tag : Option String) (endpoint : String) (uriStyle : StorageAzureUriStyle)
    (timeoutMs : Nat) (randomFileId : Nat) : StorageAzure :=
  { container := container
    account := account
    host := match uriStyle with
      | .host => account ++ "." ++ endpoint
      | .path => endpoint
    pathPrefix := match uriStyle with
      | .host => "/" ++ container
      | .path => "/" ++ account ++ "/" ++ container
    blockSize := blockSize
    tag := tag
    keyType := keyType
    sharedKey := if keyType = .shared then some base64DecodedKey else none
    sasKey := if keyType = .sas then some sasParsedKey else none
    httpClientTimeoutMs := timeoutMs
    fileId := randomFileId % 2 ^ 64
    accessToken := none
    accessTokenExpirationTime := 0 }

/-! ## Request signer (`storageAzureAuth`, lines 109-266) -/

/-- The canonical header block: every header whose key begins with `x-ms-`,
in sorted key order, rendered as `name:value\n`. -/
def headerCanonical (header : KvList) : String :=
  (kvKeyList header).foldl
    (fun acc k =>
      if strBeginsWith k "x-ms-" then acc ++ k ++ ":" ++ ((kvGet header k).getD "") ++ "\n"
      else acc) ""

/-- The canonical query block: every query parameter, in sorted key order,
rendered as `\nkey:value`; empty when the query is NULL. -/
def queryCanonical (query : Option KvList) : String :=
  match query with
  | none => ""
  | some q =>
      (kvKeyList q).foldl (fun acc k => acc ++ "\n" ++ k ++ ":" ++ ((kvGet q k).getD "")) ""

/-- The string-to-sign of shared-key authentication (lines 177-195), with the
exact newline-delimited layout of the `strNewFmt` call. -/
def azureStringToSign (verb contentLength : String) (contentMd5 : Option String)
    (dateTime : String) (range : Option String) (headerCanon account path queryCanon : String) :
    String :=
  verb ++ "\n"                                  -- verb
    ++ "\n"                                     -- content-encoding
    ++ "\n"                                     -- content-language
    ++ (if contentLength = "0" then "" else contentLength) ++ "\n" -- content-length
    ++ contentMd5.getD "" ++ "\n"               -- content-md5
    ++ "\n"                                     -- content-type
    ++ dateTime ++ "\n"                         -- date
    ++ "\n"                                     -- If-Modified-Since
    ++ "\n"                                     -- If-Match
    ++ "\n"                                     -- If-None-Match
    ++ "\n"                                     -- If-Unmodified-Since
    ++ range.getD "" ++ "\n"                    -- range
    ++ headerCanon                              -- canonicalized headers
    ++ "/" ++ account ++ path                   -- canonicalized account/path
    ++ queryCanon                               -- canonicalized query

/-- Failure modes of the signer. -/
inductive AuthError
  | assertFail    -- an ASSERT was violated
  | formatError   -- CHECK(FormatError, ...) on the token JSON
  | httpError     -- httpRequestError on the metadata request
deriving DecidableEq, Repr

/-- What the metadata identity endpoint would answer if queried: whether the
status was 2xx, and the `access_token` / `expires_in` fields parsed from the
JSON body (each `none` when the field is missing). -/
structure TokenResponse where
  codeOk : Bool
  accessToken : Option String
  expiresIn : Option Int
deriving DecidableEq, Repr

/-- Result of the signer: the mutated driver state (token cache), the mutated
header and query sets, and a trace flag recording whether the metadata
endpoint was hit during this call. -/
structure AuthResult where
  state : StorageAzure
  header : KvList
  query : Option KvList
  fetchedToken : Bool
deriving DecidableEq, Repr

/-- `storageAzureAuth` (lines 109-266).  `now` is `time(NULL)` observed in the
auto branch; `tokenResp` is the oracle for the metadata endpoint;
`hmacSha256`/`base64Encode` are the out-of-scope crypto collaborators. -/
def storageAzureAuth (this : StorageAzure) (verb path : String) (query : Option KvList)
    (dateTime : String) (httpHeader : KvList) (now : Int) (tokenResp : TokenResponse)
    (hmacSha256 : List Nat → String → List Nat) (base64Encode : List Nat → String) :
    Except AuthError AuthResult :=
  -- ASSERT(httpHeaderGet(httpHeader, HTTP_HEADER_CONTENT_LENGTH_STR) != NULL)
  if (kvGet httpHeader HTTP_HEADER_CONTENT_LENGTH).isNone then .error .assertFail
  else
    -- Host header is required for all types of authentication
    let httpHeader := kvPut httpHeader HTTP_HEADER_HOST this.host
    -- Shared key authentication
    if this.keyType = .shared ∧ this.sharedKey.isSome then
      let httpHeader := kvPut httpHeader HTTP_HEADER_DATE dateTime
      let httpHeader := kvPut httpHeader AZURE_HEADER_VERSION AZURE_HEADER_VERSION_SHARED_VALUE
      let headerCanon := headerCanonical httpHeader
      let queryCanon := queryCanonical query
      let contentLength := (kvGet httpHeader HTTP_HEADER_CONTENT_LENGTH).getD ""
      let contentMd5 := kvGet httpHeader HTTP_HEADER_CONTENT_MD5
      let range := kvGet httpHeader HTTP_HEADER_RANGE
      let stringToSign :=
        azureStringToSign verb contentLength contentMd5 dateTime range headerCanon
          this.account path queryCanon
      let httpHeader :=
        kvPut httpHeader HTTP_HEADER_AUTHORIZATION
          ("SharedKey " ++ this.account ++ ":"
            ++ base64Encode (hmacSha256 (this.sharedKey.getD []) stringToSign))
      .ok ⟨this, httpHeader, query, false⟩
    else if this.keyType = .auto then
      -- Refetch the token if the current time has reached the cached expiry
      if now ≥ this.accessTokenExpirationTime then
        if tokenResp.codeOk then
          match tokenResp.accessToken with
          | none => .error .formatError      -- CHECK(FormatError, "access token missing")
          | some tok =>
            match tokenResp.expiresIn with
            | none => .error .formatError    -- CHECK(FormatError, "expiry missing")
            | some expiresIn =>
              -- clientTimeoutPeriod = httpClientTimeout / MSEC_PER_SEC * 2
              let clientTimeoutPeriod : Int := ((this.httpClientTimeoutMs / 1000) * 2 : Nat)
              let this :=
                { this with
                  accessToken := some tok
                  -- Subtract http client timeout * 2 so the token does not expire
                  -- in the middle of http retries
                  accessTokenExpirationTime := now + expiresIn - clientTimeoutPeriod }
              let httpHeader := kvPut httpHeader AZURE_HEADER_VERSION AZURE_HEADER_VERSION_AUTO_VALUE
              let httpHeader :=
                kvPut httpHeader HTTP_HEADER_AUTHORIZATION ("Bearer " ++ (this.accessToken.getD ""))
              .ok ⟨this, httpHeader, query, true⟩
        else .error .httpError               -- httpRequestError(request, response)
      else
        let httpHeader := kvPut httpHeader AZURE_HEADER_VERSION AZURE_HEADER_VERSION_AUTO_VALUE
        let httpHeader :=
          kvPut httpHeader HTTP_HEADER_AUTHORIZATION ("Bearer " ++ (this.accessToken.getD ""))
        .ok ⟨this, httpHeader, query, false⟩
    -- SAS authentication
    else
      match query with
      | none => .error .assertFail           -- httpQueryMerge requires a query set
      | some q => .ok ⟨this, httpHeader, some (httpQueryMerge q (this.sasKey.getD [])), false⟩

/-! ## Canonical info model (`StorageInfo` interface) -/

/-- `storageInfoLevelType` of the `StorageInfoLevel` enum. -/
def storageInfoLevelType : Nat := 2

/-- `storageInfoLevelBasic` of the `StorageInfoLevel` enum. -/
def storageInfoLevelBasic : Nat := 3

/-- `StorageType`: entry kind. -/
inductive StorageType
  | file
  | path
deriving DecidableEq, Repr

/-- Canonical info record.  `name` is `""` where the C leaves the field NULL;
`type` defaults to `file` (the zero enum value). -/
structure StorageInfo where
  name : String
  level : Nat
  infoExists : Bool
  type : StorageType
  size : Nat
  timeModified : Int
deriving DecidableEq, Repr

/-- Out-of-scope conversion collaborators used when parsing listing/info
payloads: `cvtZToUInt64` and `httpDateToTime`. -/
structure ExternalConv where
  cvtZToUInt64 : String → Nat
  httpDateToTime : String → Int

/-! ## Info operation (`storageAzureInfo`, lines 568-599) -/

/-- A dispatched HTTP request as seen by this driver: verb and effective path
(the driver's path prefix prepended, per `storageAzureRequestAsync` line 292;
percent-encoding is the transport collaborator's concern). -/
structure IssuedRequest where
  verb : String
  path : String
deriving DecidableEq, Repr

/-- The parts of an awaited HTTP response that the info operation reads:
status code and response headers. -/
structure HttpResponseData where
  code : Nat
  headerList : KvList
deriving DecidableEq, Repr

/-- `storageAzureInfo`: HEAD the resolved path with `.allowMissing = true`,
map the status to the existence flag, and populate size/modified-time from
the `content-length`/`last-modified` response headers at basic level.
Returns the issued request, the allow-missing flag passed to the await, and
the outcome (error when the await raised). -/
def storageAzureInfo (this : StorageAzure) (file : String) (level : Nat)
    (conv : ExternalConv) (resp : HttpResponseData) :
    IssuedRequest × Bool × Except Unit StorageInfo :=
  (⟨HTTP_VERB_HEAD, this.pathPrefix ++ file⟩, true,
    match storageAzureResponse resp.code true with
    | .error e => .error e
    | .ok _ =>
      let ex := httpResponseCodeOk resp.code
      .ok
        { name := ""
          level := level
          infoExists := ex
          type := .file
          size :=
            if level ≥ storageInfoLevelBasic ∧ ex then
              conv.cvtZToUInt64 ((kvGet resp.headerList HTTP_HEADER_CONTENT_LENGTH).getD "")
            else 0
          timeModified :=
            if level ≥ storageInfoLevelBasic ∧ ex then
              conv.httpDateToTime ((kvGet resp.headerList HTTP_HEADER_LAST_MODIFIED).getD "")
            else 0 })

/-! ## Listing engine (`storageAzureListInternal`, lines 398-565) -/

/-- One parsed listing page: `BlobPrefix` names, `Blob` entries
(name, `Content-Length` text, `Last-Modified` text) and the `NextMarker`
content (`""` when absent/empty). -/
structure ListPage where
  prefixes : List String
  blobs : List (String × String × String)
  nextMarker : String
deriving DecidableEq, Repr

/-- The base prefix of a listing (line 421): empty for the root path `/`,
else the path with the leading `/` stripped and a `/` appended. -/
def basePrefixOf (path : String) : String :=
  if strSize path = 1 then "" else strSub path 1 ++ "/"

/-- Info record emitted for a `BlobPrefix` entry (lines 501-522): strip the
base prefix and the final `/` from the name; mark as a path at type level. -/
def prefixEntryInfo (basePrefix : String) (level : Nat) (name : String) : StorageInfo :=
  { name := strSubN name (strSize basePrefix) (strSize name - strSize basePrefix - 1)
    level := level
    infoExists := true
    type := if level ≥ storageInfoLevelType then .path else .file
    size := 0
    timeModified := 0 }

/-- Info record emitted for a `Blob` entry (lines 527-556): strip the base
prefix when present; at basic level parse size and modified time from the
`Properties` node. -/
def blobEntryInfo (conv : ExternalConv) (basePrefix : String) (level : Nat)
    (e : String × String × String) : StorageInfo :=
  { name := if basePrefix = "" then e.1 else strSub e.1 (strSize basePrefix)
    level := level
    infoExists := true
    type := .file
    size := if level ≥ storageInfoLevelBasic then conv.cvtZToUInt64 e.2.1 else 0
    timeModified := if level ≥ storageInfoLevelBasic then conv.httpDateToTime e.2.2 else 0 }

/-- The info records of one page, in emission order: all prefix entries, then
all blob entries, each in server order. -/
def pageInfos (conv : ExternalConv) (basePrefix : String) (level : Nat) (p : ListPage) :
    List StorageInfo :=
  p.prefixes.map (prefixEntryInfo basePrefix level) ++ p.blobs.map (blobEntryInfo conv basePrefix level)

/-- Trace events of the listing engine: a dispatched request (carrying its
query set), an awaited response, and a callback invocation. -/
inductive ListEvent
  | issue (query : KvList)
  | awaitResp
  | entry (info : StorageInfo)
deriving DecidableEq, Repr

/-- The events of one page's entry-processing phase. -/
def pageEntryEvents (conv : ExternalConv) (basePrefix : String) (level : Nat) (p : ListPage) :
    List ListEvent :=
  (pageInfos conv basePrefix level p).map .entry

/-- The listing loop (lines 459-560).  `pages` is the sequence of responses
the server returns; `inFlight` tells whether an async request from the prior
iteration is outstanding.  Each iteration awaits (or issues-and-awaits) a
response, issues the next page's request when the continuation marker is
non-empty (merging the marker into the query) before processing entries, and
stops when a page yields no marker. -/
def listLoop (conv : ExternalConv) (basePrefix : String) (level : Nat) :
    List ListPage → KvList → Bool → List ListEvent
  | [], _, _ => []
  | p :: rest, query, inFlight =>
      (if inFlight then [.awaitResp] else [.issue query, .awaitResp])
        ++ (if p.nextMarker = "" then []
            else [.issue (kvPut query AZURE_QUERY_MARKER p.nextMarker)])
        ++ pageEntryEvents conv basePrefix level p
        ++ (if p.nextMarker = "" then []
            else listLoop conv basePrefix level rest (kvPut query AZURE_QUERY_MARKER p.nextMarker) true)

/-- The initial query (lines 440-454): delimiter `/` when not recursing,
restype container, comp list, and the query prefix when non-empty. -/
def listBaseQuery (recurse : Bool) (queryPrefix : String) : KvList :=
  (if recurse then [] else [("delimiter", "/")])
    ++ [("restype", "container"), ("comp", "list")]
    ++ (if queryPrefix = "" then [] else [("prefix", queryPrefix)])

/-- The query prefix (lines 424-437): the base prefix extended by the literal
prefix of the filter expression when one was extracted
(`expressionPrefix` models the out-of-scope `regExpPrefix(expression)`). -/
def listQueryPrefix (basePrefix : String) (expressionPrefix : Option String) : String :=
  match expressionPrefix with
  | none => basePrefix
  | some ep => if basePrefix = "" then ep else basePrefix ++ ep

/-- `storageAzureListInternal`: full event trace of a listing over the given
server pages. -/
def storageAzureListInternal (conv : ExternalConv) (path : String) (level : Nat)
    (expressionPrefix : Option String) (recurse : Bool) (pages : List ListPage) :
    List ListEvent :=
  let basePrefix := basePrefixOf path
  listLoop conv basePrefix level pages
    (listBaseQuery recurse (listQueryPrefix basePrefix expressionPrefix)) false

/-- Is a listing trace event a dispatched request? -/
def isIssue : ListEvent → Bool
  | .issue _ => true
  | _ => false

/-- The info record of a callback event, if any. -/
def entryOf : ListEvent → Option StorageInfo
  | .entry i => some i
  | _ => none

/-- Number of requests dispatched in a listing trace. -/
def issueCount (evs : List ListEvent) : Nat :=
  evs.countP isIssue

/-- The callback invocations of a listing trace, in order. -/
def entryInfos (evs : List ListEvent) : List StorageInfo :=
  evs.filterMap entryOf

/-- Pipelining depth check for a listing trace: starting from `n` outstanding
requests, an issue is legal only at depth 0 and an await only at depth 1,
so at most one request is ever outstanding. -/
def listDepthOk : List ListEvent → Nat → Bool
  | [], _ => true
  | .issue _ :: r, n => n == 0 && listDepthOk r 1
  | .awaitResp :: r, n => n == 1 && listDepthOk r 0
  | .entry _ :: r, n => listDepthOk r n

/-- Well-formed continuation markers for an `N`-page listing: at least one
page, a non-empty marker on every page but the last, and none on the last. -/
def markersOk : List ListPage → Bool
  | [] => false
  | [p] => p.nextMarker == ""
  | p :: q :: rest => p.nextMarker != "" && markersOk (q :: rest)

/-- The listing trace as the claim describes it: one initial request, then per
page an await, the next page's request (marker merged into the query) issued
before the page's entries when the page is not the last, then the entries. -/
def specListTail (conv : ExternalConv) (basePrefix : String) (level : Nat) :
    List ListPage → KvList → List ListEvent
  | [], _ => []
  | [p], _ => .awaitResp :: pageEntryEvents conv basePrefix level p
  | p :: q :: rest, query =>
      .awaitResp :: .issue (kvPut query AZURE_QUERY_MARKER p.nextMarker)
        :: (pageEntryEvents conv basePrefix level p
          ++ specListTail conv basePrefix level (q :: rest) (kvPut query AZURE_QUERY_MARKER p.nextMarker))

/-! ## Recursive delete walker (lines 684-760) -/

/-- Trace events of the delete walker: a DELETE dispatched for a path, and a
response awaited (and discarded, tolerating not-found) for a path. -/
inductive DeleteEvent
  | issueDelete (path : String)
  | awaitDelete (path : String)
deriving DecidableEq, Repr

/-- `storageAzurePathRemoveCallback` (lines 692-725): await and discard any
prior outstanding delete, then issue a new async delete for
`<root>/<name>` when the entry is a file.  State is the outstanding
request's path. -/
def storageAzurePathRemoveCallback (rootPath : String) (pending : Option String)
    (info : StorageInfo) : Option String × List DeleteEvent :=
  -- Get response from prior async request
  let awaited : List DeleteEvent :=
    match pending with
    | some p => [.awaitDelete p]
    | none => []
  -- Only delete files since paths don't really exist
  if info.type = .file then
    let delPath := rootPath ++ "/" ++ info.name
    (some delPath, awaited ++ [.issueDelete delPath])
  else
    (none, awaited)

/-- The callback-driven walk over the visited listing entries. -/
def pathRemoveWalk (rootPath : String) : Option String → List StorageInfo →
    Option String × List DeleteEvent
  | pending, [] => (pending, [])
  | pending, i :: rest =>
      let step := storageAzurePathRemoveCallback rootPath pending i
      let tail := pathRemoveWalk rootPath step.1 rest
      (tail.1, step.2 ++ tail.2)

/-- `storageAzurePathRemove` (lines 727-760): walk the recursive listing's
entries, await the final outstanding delete, and return `true`
unconditionally.  `entries` are the info records the listing engine delivers
to the callback. -/
def storageAzurePathRemove (path : String) (entries : List StorageInfo) :
    List DeleteEvent × Bool :=
  let rootPath := if path = "/" then "" else path
  let walk := pathRemoveWalk rootPath none entries
  (walk.2 ++ (match walk.1 with | some p => [.awaitDelete p] | none => []), true)

/-- The DELETE requests dispatched in a delete trace, in order. -/
def deletePaths (evs : List DeleteEvent) : List String :=
  evs.filterMap fun e => match e with | .issueDelete p => some p | _ => none

/-- Pipelining check for a delete trace, threading the outstanding request:
an issue is legal only with nothing outstanding, an await only for the path
last issued, and nothing may remain outstanding at the end. -/
def deleteDepthOk : Option String → List DeleteEvent → Bool
  | none, [] => true
  | some _, [] => false
  | none, .issueDelete p :: r => deleteDepthOk (some p) r
  | none, .awaitDelete _ :: _ => false
  | some p, .awaitDelete q :: r => p == q && deleteDepthOk none r
  | some _, .issueDelete _ :: _ => false

/-- Run the awaits of a delete trace against server statuses: the `k`-th
await validates `statuses k` with `.allowMissing = true`
(`storageAzureResponse(request, .allowMissing = true)`), aborting on error. -/
def runDeleteEvents (statuses : Nat → Nat) : List DeleteEvent → Nat → Except Unit Unit
  | [], _ => .ok ()
  | .issueDelete _ :: r, k => runDeleteEvents statuses r k
  | .awaitDelete _ :: r, k =>
      match storageAzureResponse (statuses k) true with
      | .error e => .error e
      | .ok _ => runDeleteEvents statuses r (k + 1)

/-! ## Single-file remove (`storageAzureRemove`, lines 763-781) -/

/-- Trace of the single-file remove: the issued request, the allow-missing
flag passed to the await, and the outcome (the response is freed, so the
operation returns no information). -/
structure RemoveTrace where
  request : IssuedRequest
  allowMissing : Bool
  outcome : Except Unit Unit
deriving Repr

/-- `storageAzureRemove`: asserts `!param.errorOnMissing` (modelled as `none`
on violation), then issues a DELETE for the file with
`.allowMissing = true` and discards the response.  `respCode` is the status
the server returns. -/
def storageAzureRemove (this : StorageAzure) (file : String) (errorOnMissing : Bool)
    (respCode : Nat) : Option RemoveTrace :=
  if errorOnMissing then none
  else
    some
      { request := ⟨HTTP_VERB_DELETE, this.pathPrefix ++ file⟩
        allowMissing := true
        outcome := (storageAzureResponse respCode true).map fun _ => () }

/-! ## Write construction (`storageAzureNewWrite`, lines 661-681) -/

/-- The arguments `storageWriteAzureNew` receives from the driver. -/
structure WriteRequest where
  file : String
  fileId : Nat
  blockSize : Nat
deriving DecidableEq, Repr

/-- `storageAzureNewWrite`: pass the current file-id counter to the new write
object and post-increment the counter (`this->fileId++`, a `uint64_t`). -/
def storageAzureNewWrite (this : StorageAzure) (file : String) :
    WriteRequest × StorageAzure :=
  ({ file := file, fileId := this.fileId, blockSize := this.blockSize },
    { this with fileId := (this.fileId + 1) % 2 ^ 64 })

/-- The header set produced by the dynamic-bearer branch: Host, the
bearer-capable version header, and the Bearer authorization header. -/
def autoBearerHeader (header : KvList) (host tok : String) : KvList :=
  kvPut (kvPut (kvPut header HTTP_HEADER_HOST host) AZURE_HEADER_VERSION
    AZURE_HEADER_VERSION_AUTO_VALUE) HTTP_HEADER_AUTHORIZATION ("Bearer " ++ tok)

/-- The header set produced by the shared-key branch before the authorization
header: Host, Date, and the shared-key version header. -/
def sharedSignedBase (header : KvList) (host dateTime : String) : KvList :=
  kvPut (kvPut (kvPut header HTTP_HEADER_HOST host) HTTP_HEADER_DATE dateTime)
    AZURE_HEADER_VERSION AZURE_HEADER_VERSION_SHARED_VALUE

end Azure

open Azure

namespace Azure

theorem kvGet_kvPut_self (kv : KvList) (k v : String) : kvGet (kvPut kv k v) k = some v := by
  induction kv with
  | nil => simp [kvPut, kvGet]
  | cons h rest ih =>
    obtain ⟨k', v'⟩ := h
    by_cases hk : k' = k
    · subst hk
      simp [kvPut, kvGet]
    · simp [kvPut, kvGet, hk, ih]

theorem kvGet_kvPut_ne (kv : KvList) (k v k' : String) (h : k ≠ k') :
    kvGet (kvPut kv k v) k' = kvGet kv k' := by
  induction kv with
  | nil => simp [kvPut, kvGet, h]
  | cons p rest ih =>
    obtain ⟨k₁, v₁⟩ := p
    by_cases hk : k₁ = k
    · subst hk
      simp [kvPut, kvGet, h]
    · simp [kvPut, kvGet, hk, ih]

end Azure

/-! ## C5: await raises iff non-success and not (not-found with allow-missing) -/

namespace Azure

theorem storageAzureResponse_error_iff (code : Nat) (allowMissing : Bool) :
    storageAzureResponse code allowMissing = .error () ↔
      (¬ httpResponseCodeOk code ∧ ¬ (allowMissing ∧ code = 404)) := by
  unfold storageAzureResponse HTTP_RESPONSE_CODE_NOT_FOUND
  by_cases hok : httpResponseCodeOk code <;> by_cases ha : allowMissing <;>
    by_cases hc : code = 404 <;> simp [hok, ha, hc]

theorem storageAzureResponse_ok_of_ok (code : Nat) (allowMissing : Bool)
    (h : httpResponseCodeOk code) : storageAzureResponse code allowMissing = .ok code := by
  unfold storageAzureResponse
  simp [h]

end Azure

/-- C5: for every awaited response, a success status is returned normally; a
not-found status with the allow-missing flag set is returned as a normal
(non-error) outcome; every other non-success case raises.  Equivalently, the
await operation raises if and only if the status is non-success and not
(not-found with allow-missing set). -/
theorem C5_response_error_iff (code : Nat) (allowMissing : Bool) :
    (Azure.httpResponseCodeOk code →
      Azure.storageAzureResponse code allowMissing = .ok code) ∧
    (code = 404 → allowMissing →
      Azure.storageAzureResponse code allowMissing = .ok code) ∧
    (Azure.storageAzureResponse code allowMissing = .error () ↔
      (¬ Azure.httpResponseCodeOk code ∧ ¬ (allowMissing ∧ code = 404))) := by
  refine ⟨fun h => Azure.storageAzureResponse_ok_of_ok code allowMissing h, fun hc ha => ?_,
    Azure.storageAzureResponse_error_iff code allowMissing⟩
  unfold Azure.storageAzureResponse Azure.HTTP_RESPONSE_CODE_NOT_FOUND
  simp [hc, ha]

/-- Witness for C5 at a concrete input: status 200 with allow-missing unset. -/
theorem C5_response_error_iff_witness :
    (Azure.httpResponseCodeOk 200 →
      Azure.storageAzureResponse 200 false = .ok 200) ∧
    (200 = 404 → false = true →
      Azure.storageAzureResponse 200 false = .ok 200) ∧
    (Azure.storageAzureResponse 200 false = .error () ↔
      (¬ Azure.httpResponseCodeOk 200 ∧ ¬ (false = true ∧ 200 = 404))) :=
  C5_response_error_iff 200 false

/-! ## C10: single-file remove -/

/-- C10: the single-file remove operation requires as a precondition that the
caller has not requested error-on-missing (the assertion is modelled as the
`none` outcome), always issues its DELETE with not-found tolerated
(`allowMissing = true`), and returns no result (`Unit` outcome): removing an
absent file (status 404) never raises, and the operation never reports
whether the file existed. -/
theorem C10_remove_tolerates_missing (this : StorageAzure) (file : String) (respCode : Nat) :
    storageAzureRemove this file true respCode = none ∧
    storageAzureRemove this file false respCode =
      some
        { request := ⟨HTTP_VERB_DELETE, this.pathPrefix ++ file⟩
          allowMissing := true
          outcome := (storageAzureResponse respCode true).map fun _ => () } ∧
    storageAzureRemove this file false 404 =
      some
        { request := ⟨HTTP_VERB_DELETE, this.pathPrefix ++ file⟩
          allowMissing := true
          outcome := .ok () } := by
  refine ⟨rfl, rfl, ?_⟩
  simp [storageAzureRemove, storageAzureResponse, httpResponseCodeOk,
    HTTP_RESPONSE_CODE_NOT_FOUND, Except.map]

/-! ## C9: the write-construction file-id counter -/

/-- C9: every write construction passes the instance's current file-id
counter to the new write object and increments the counter by exactly one
modulo 2^64; two successive constructions receive consecutive and in
particular distinct identifiers; and the signer — the only other operation
of the driver that returns a mutated state — never changes the counter. -/
theorem C9_newWrite_fileId (this : StorageAzure) (f1 f2 : String)
    (hlt : this.fileId < 2 ^ 64) :
    (storageAzureNewWrite this f1).1.fileId = this.fileId ∧
    (storageAzureNewWrite this f1).2.fileId = (this.fileId + 1) % 2 ^ 64 ∧
    (storageAzureNewWrite (storageAzureNewWrite this f1).2 f2).1.fileId =
      (this.fileId + 1) % 2 ^ 64 ∧
    (storageAzureNewWrite this f1).1.fileId ≠
      (storageAzureNewWrite (storageAzureNewWrite this f1).2 f2).1.fileId ∧
    (∀ verb path query dateTime header now tokenResp hm b64 r,
      storageAzureAuth this verb path query dateTime header now tokenResp hm b64 = .ok r →
      r.state.fileId = this.fileId) := by
  refine ⟨rfl, rfl, rfl, ?_, ?_⟩
  · show this.fileId ≠ (this.fileId + 1) % 2 ^ 64
    have hpow : (2 : Nat) ^ 64 = 18446744073709551616 := by norm_num
    by_cases hsucc : this.fileId + 1 < 2 ^ 64
    · rw [Nat.mod_eq_of_lt hsucc]
      omega
    · have heq : this.fileId + 1 = 2 ^ 64 := by omega
      rw [heq, Nat.mod_self]
      omega
  · intro verb path query dateTime header now tokenResp hm b64 r hr
    unfold storageAzureAuth at hr
    split at hr
    · exact absurd hr (by simp)
    · split at hr
      · rw [← Except.ok.inj hr]
      · split at hr
        · split at hr
          · split at hr
            · split at hr
              · exact absurd hr (by simp)
              · split at hr
                · exact absurd hr (by simp)
                · rw [← Except.ok.inj hr]
            · exact absurd hr (by simp)
          · rw [← Except.ok.inj hr]
        · split at hr
          · exact absurd hr (by simp)
          · rw [← Except.ok.inj hr]

/-- Witness for C9 at a concrete driver state. -/
theorem C9_newWrite_fileId_witness :
    ((storageAzureNew "cont" "acct" .shared [1] [] 4 none "ep" .host 5000 7).fileId < 2 ^ 64) ∧
    ((storageAzureNewWrite (storageAzureNew "cont" "acct" .shared [1] [] 4 none "ep" .host 5000 7)
        "a").1.fileId =
      (storageAzureNew "cont" "acct" .shared [1] [] 4 none "ep" .host 5000 7).fileId) :=
  ⟨by norm_num [storageAzureNew],
    (C9_newWrite_fileId (storageAzureNew "cont" "acct" .shared [1] [] 4 none "ep" .host 5000 7)
      "a" "b" (by norm_num [storageAzureNew])).1⟩

/-! ## C7: SAS-mode signing -/

/-- C7 counterexample: the claim states that SAS-mode signing leaves the
caller's header set entirely unchanged, but the signer puts the Host header
for every authentication mode (line 133), so after SAS signing the header
set has gained a `host` entry the caller's set did not have. -/
theorem C7_counterexample :
    storageAzureAuth (storageAzureNew "cont" "acct" .sas [] [("sig", "X")] 4 none "ep" .host 5000 7)
        "GET" "/cont/f" (some []) "D" [("content-length", "0")] 0 ⟨false, none, none⟩
        (fun _ _ => []) (fun _ => "") =
      .ok ⟨storageAzureNew "cont" "acct" .sas [] [("sig", "X")] 4 none "ep" .host 5000 7,
        [("content-length", "0"), ("host", "acct.ep")], some [("sig", "X")], false⟩ ∧
    [("content-length", "0"), ("host", "acct.ep")] ≠ [("content-length", "0")] := by
  constructor
  · rfl
  · decide

/-- C7 (amended): SAS-mode signing merges the precomputed credential query
parameters into the caller's query set; its only header change is putting
the Host header, which the signer does for every authentication mode —
every header other than `host` is left unchanged. -/
theorem C7_sas_merge (this : StorageAzure) (q sk : KvList) (verb path dateTime : String)
    (header : KvList) (cl : String) (now : Int) (tokenResp : TokenResponse)
    (hm : List Nat → String → List Nat) (b64 : List Nat → String)
    (hkt : this.keyType = .sas) (hsk : this.sasKey = some sk)
    (hcl : kvGet header HTTP_HEADER_CONTENT_LENGTH = some cl) :
    storageAzureAuth this verb path (some q) dateTime header now tokenResp hm b64 =
      .ok ⟨this, kvPut header HTTP_HEADER_HOST this.host, some (httpQueryMerge q sk), false⟩ ∧
    (∀ k, k ≠ HTTP_HEADER_HOST →
      kvGet (kvPut header HTTP_HEADER_HOST this.host) k = kvGet header k) := by
  constructor
  · unfold storageAzureAuth
    rw [hcl]
    simp [hkt, hsk]
  · intro k hk
    exact kvGet_kvPut_ne header HTTP_HEADER_HOST this.host k fun h => hk h.symm

/-- Witness for C7 at a concrete SAS driver state. -/
theorem C7_sas_merge_witness :
    storageAzureAuth (storageAzureNew "c2" "a2" .sas [] [("sig", "Y")] 4 none "ep" .path 5000 7)
        "PUT" "/a2/c2/f" (some [("comp", "list")]) "D" [("content-length", "3")] 0
        ⟨false, none, none⟩ (fun _ _ => []) (fun _ => "") =
      .ok ⟨storageAzureNew "c2" "a2" .sas [] [("sig", "Y")] 4 none "ep" .path 5000 7,
        kvPut [("content-length", "3")] HTTP_HEADER_HOST
          (storageAzureNew "c2" "a2" .sas [] [("sig", "Y")] 4 none "ep" .path 5000 7).host,
        some (httpQueryMerge [("comp", "list")] [("sig", "Y")]), false⟩ ∧
    (∀ k, k ≠ HTTP_HEADER_HOST →
      kvGet (kvPut [("content-length", "3")] HTTP_HEADER_HOST
          (storageAzureNew "c2" "a2" .sas [] [("sig", "Y")] 4 none "ep" .path 5000 7).host) k =
        kvGet [("content-length", "3")] k) :=
  C7_sas_merge _ _ _ _ _ _ _ _ _ _ _ _ rfl rfl rfl

/-! ## C6: the info operation -/

/-- C6 counterexample: the claim states the info operation treats any
non-success response as non-existence without raising, but the await
tolerates only not-found — a 500 response makes the operation raise. -/
theorem C6_counterexample :
    (storageAzureInfo (storageAzureNew "cont" "acct" .shared [1] [] 4 none "ep" .host 5000 7)
        "/f" 0 ⟨fun _ => 0, fun _ => 0⟩ ⟨500, []⟩).2.2 = .error () := by
  rfl

/-- C6 (amended): the info operation performs a HEAD request on the resolved
path with not-found tolerated; a not-found response yields an exists-false
record without raising; a success response yields an exists-true record
with size and modified-time parsed from the Content-Length and Last-Modified
response headers when basic detail is requested; any other non-success
response raises. -/
theorem C6_info (this : StorageAzure) (file : String) (level : Nat) (conv : ExternalConv)
    (resp : HttpResponseData) :
    (storageAzureInfo this file level conv resp).1 = ⟨HTTP_VERB_HEAD, this.pathPrefix ++ file⟩ ∧
    (storageAzureInfo this file level conv resp).2.1 = true ∧
    (resp.code = 404 →
      (storageAzureInfo this file level conv resp).2.2 = .ok ⟨"", level, false, .file, 0, 0⟩) ∧
    (httpResponseCodeOk resp.code = true →
      (storageAzureInfo this file level conv resp).2.2 =
        .ok ⟨"", level, true, .file,
          if level ≥ storageInfoLevelBasic then
            conv.cvtZToUInt64 ((kvGet resp.headerList HTTP_HEADER_CONTENT_LENGTH).getD "")
          else 0,
          if level ≥ storageInfoLevelBasic then
            conv.httpDateToTime ((kvGet resp.headerList HTTP_HEADER_LAST_MODIFIED).getD "")
          else 0⟩) ∧
    (httpResponseCodeOk resp.code = false → resp.code ≠ 404 →
      (storageAzureInfo this file level conv resp).2.2 = .error ()) := by
  refine ⟨rfl, rfl, ?_, ?_, ?_⟩
  · intro h404
    simp [storageAzureInfo, storageAzureResponse, h404, httpResponseCodeOk,
      HTTP_RESPONSE_CODE_NOT_FOUND]
  · intro hok
    simp [storageAzureInfo, storageAzureResponse, hok]
  · intro hbad h404
    simp [storageAzureInfo, storageAzureResponse, hbad, h404, HTTP_RESPONSE_CODE_NOT_FOUND]

/-- Witness for C6: a not-found response at a concrete driver state yields an
exists-false record without raising. -/
theorem C6_info_witness :
    (storageAzureInfo (storageAzureNew "cont" "acct" .shared [1] [] 4 none "ep" .host 5000 7)
        "/f" 3 ⟨fun _ => 0, fun _ => 0⟩ ⟨404, []⟩).2.2 = .ok ⟨"", 3, false, .file, 0, 0⟩ :=
  (C6_info (storageAzureNew "cont" "acct" .shared [1] [] 4 none "ep" .host 5000 7)
    "/f" 3 ⟨fun _ => 0, fun _ => 0⟩ ⟨404, []⟩).2.2.1 rfl

/-! ## C8: listing entry name reduction -/

namespace Azure

theorem string_data_append (s t : String) : (s ++ t).data = s.data ++ t.data := by
  cases s
  cases t
  rfl

end Azure

/-- C8 counterexample: the claim states that for a root-path listing (empty
base prefix) entry names are left unmodified, but a directory-kind
(`BlobPrefix`) entry named `sub/` is emitted with its trailing separator
stripped, as `sub`. -/
theorem C8_counterexample :
    (prefixEntryInfo "" 2 "sub/").name = "sub" ∧ ("sub" : String) ≠ "sub/" := by
  constructor
  · rfl
  · decide

/-- C8 (amended): a directory-kind (prefix) entry named `<base>sub/` yields
relative name `sub` (base prefix and trailing separator stripped); a
file-kind (blob) entry named `<base>file.txt` yields `file.txt` (base prefix
stripped); and for a root-path listing, where the base prefix is empty,
file entry names are left unmodified, while directory entry names still
have the trailing separator stripped. -/
theorem C8_name_reduction (base sub file : String) (level : Nat) (conv : ExternalConv)
    (cl lm : String) :
    (prefixEntryInfo base level (base ++ sub ++ "/")).name = sub ∧
    (blobEntryInfo conv base level (base ++ file, cl, lm)).name = file ∧
    (blobEntryInfo conv "" level (file, cl, lm)).name = file ∧
    (prefixEntryInfo "" level (sub ++ "/")).name = sub := by
  have hstrip : ∀ b : String, (prefixEntryInfo b level (b ++ sub ++ "/")).name = sub := by
    intro b
    have hdatab : (b ++ sub ++ "/").data = b.data ++ (sub.data ++ ['/']) := by
      rw [string_data_append, string_data_append, List.append_assoc]
    show strSubN (b ++ sub ++ "/") (strSize b)
      (strSize (b ++ sub ++ "/") - strSize b - 1) = sub
    unfold strSubN strSize
    rw [hdatab]
    have hlen : (b.data ++ (sub.data ++ ['/'])).length - b.data.length - 1 =
        sub.data.length := by
      simp [List.length_append]
    rw [hlen, List.drop_left, List.take_left]
  refine ⟨hstrip base, ?_, ?_, ?_⟩
  · by_cases hb : base = ""
    · subst hb
      show (if ("" : String) = "" then ("" : String) ++ file
        else strSub (("" : String) ++ file) (strSize "")) = file
      rw [if_pos rfl]
      cases file
      rfl
    · show (if base = "" then base ++ file else strSub (base ++ file) (strSize base)) = file
      rw [if_neg hb]
      unfold strSub strSize
      rw [string_data_append, List.drop_left]
  · rfl
  · have hempty : ("" : String) ++ sub ++ "/" = sub ++ "/" := by
      cases sub
      rfl
    have h := hstrip ""
    rwa [hempty] at h

/-! ## C1: shared-key signing -/

/-- C1: for every shared-key-mode driver instance and every verb, path,
query set, timestamp, and header set containing a content-length header,
the signing operation builds the string-to-sign in the exact
newline-delimited layout — verb, empty content-encoding, empty
content-language, content-length (empty when `"0"`, else the decimal text),
content-MD5 (empty if absent), empty content-type, date, four empty
conditional headers, Range (empty if absent), the canonical block of
`x-ms-`-prefixed headers rendered `name:value\n` in key order, a literal
`/`, the account, the path, and the canonical query block rendered
`\nkey:value` in key order — and sets the authorization header to
`SharedKey <account>:<base64(HMAC-SHA256(sharedKey, stringToSign))>`.
The result is a function of the listed inputs only (`now` and `tokenResp`
do not occur in it), so identical inputs always produce an identical
authorization header. -/
theorem C1_shared_key_signing (this : StorageAzure) (key : List Nat)
    (verb path dateTime : String) (query : Option KvList) (httpHeader : KvList)
    (cl : String) (now : Int) (tokenResp : TokenResponse)
    (hmacSha256 : List Nat → String → List Nat) (base64Encode : List Nat → String)
    (hkt : this.keyType = .shared) (hkey : this.sharedKey = some key)
    (hcl : kvGet httpHeader HTTP_HEADER_CONTENT_LENGTH = some cl) :
    storageAzureAuth this verb path query dateTime httpHeader now tokenResp hmacSha256
        base64Encode =
      .ok ⟨this,
        kvPut (sharedSignedBase httpHeader this.host dateTime) HTTP_HEADER_AUTHORIZATION
          ("SharedKey " ++ this.account ++ ":"
            ++ base64Encode (hmacSha256 key
              (verb ++ "\n"
                ++ "\n"
                ++ "\n"
                ++ (if cl = "0" then "" else cl) ++ "\n"
                ++ ((kvGet httpHeader HTTP_HEADER_CONTENT_MD5).getD "") ++ "\n"
                ++ "\n"
                ++ dateTime ++ "\n"
                ++ "\n"
                ++ "\n"
                ++ "\n"
                ++ "\n"
                ++ ((kvGet httpHeader HTTP_HEADER_RANGE).getD "") ++ "\n"
                ++ headerCanonical (sharedSignedBase httpHeader this.host dateTime)
                ++ "/" ++ this.account ++ path
                ++ queryCanonical query))),
        query, false⟩ := by
  have hgetcl : kvGet (sharedSignedBase httpHeader this.host dateTime)
      HTTP_HEADER_CONTENT_LENGTH = some cl := by
    unfold sharedSignedBase
    rw [kvGet_kvPut_ne _ _ _ _ (by decide), kvGet_kvPut_ne _ _ _ _ (by decide),
      kvGet_kvPut_ne _ _ _ _ (by decide), hcl]
  have hgetmd5 : kvGet (sharedSignedBase httpHeader this.host dateTime)
      HTTP_HEADER_CONTENT_MD5 = kvGet httpHeader HTTP_HEADER_CONTENT_MD5 := by
    unfold sharedSignedBase
    rw [kvGet_kvPut_ne _ _ _ _ (by decide), kvGet_kvPut_ne _ _ _ _ (by decide),
      kvGet_kvPut_ne _ _ _ _ (by decide)]
  have hgetrange : kvGet (sharedSignedBase httpHeader this.host dateTime)
      HTTP_HEADER_RANGE = kvGet httpHeader HTTP_HEADER_RANGE := by
    unfold sharedSignedBase
    rw [kvGet_kvPut_ne _ _ _ _ (by decide), kvGet_kvPut_ne _ _ _ _ (by decide),
      kvGet_kvPut_ne _ _ _ _ (by decide)]
  unfold storageAzureAuth
  rw [hcl]
  have hbase : kvPut (kvPut (kvPut httpHeader HTTP_HEADER_HOST this.host) HTTP_HEADER_DATE
      dateTime) AZURE_HEADER_VERSION AZURE_HEADER_VERSION_SHARED_VALUE =
      sharedSignedBase httpHeader this.host dateTime := rfl
  simp only [hkt, hkey, Option.isNone_some, Option.isSome_some, and_self, if_true,
    Bool.false_eq_true, if_false, hbase, azureStringToSign, hgetcl, hgetmd5, hgetrange,
    Option.getD_some]

/-- Witness for C1 at a concrete shared-key driver state, header and query. -/
theorem C1_shared_key_signing_witness :
    storageAzureAuth (storageAzureNew "cont" "acct" .shared [1, 2] [] 4 none "ep" .host 5000 7)
        "GET" "/cont" (some [("comp", "list")]) "Mon, 01 Jan 2024 00:00:00 GMT"
        [("content-length", "0")] 0 ⟨false, none, none⟩
        (fun k s => k ++ [s.length]) (fun l => toString l.length) =
      .ok ⟨storageAzureNew "cont" "acct" .shared [1, 2] [] 4 none "ep" .host 5000 7,
        kvPut (sharedSignedBase [("content-length", "0")]
            (storageAzureNew "cont" "acct" .shared [1, 2] [] 4 none "ep" .host 5000 7).host
            "Mon, 01 Jan 2024 00:00:00 GMT") HTTP_HEADER_AUTHORIZATION
          ("SharedKey "
            ++ (storageAzureNew "cont" "acct" .shared [1, 2] [] 4 none "ep" .host 5000 7).account
            ++ ":"
            ++ (fun l : List Nat => toString l.length) ((fun k (s : String) => k ++ [s.length])
              ([1, 2] : List Nat)
              ("GET" ++ "\n"
                ++ "\n"
                ++ "\n"
                ++ (if ("0" : String) = "0" then "" else "0") ++ "\n"
                ++ ((kvGet [("content-length", "0")] HTTP_HEADER_CONTENT_MD5).getD "") ++ "\n"
                ++ "\n"
                ++ "Mon, 01 Jan 2024 00:00:00 GMT" ++ "\n"
                ++ "\n"
                ++ "\n"
                ++ "\n"
                ++ "\n"
                ++ ((kvGet [("content-length", "0")] HTTP_HEADER_RANGE).getD "") ++ "\n"
                ++ headerCanonical (sharedSignedBase [("content-length", "0")]
                  (storageAzureNew "cont" "acct" .shared [1, 2] [] 4 none "ep" .host 5000 7).host
                  "Mon, 01 Jan 2024 00:00:00 GMT")
                ++ "/"
                ++ (storageAzureNew "cont" "acct" .shared [1, 2] [] 4 none "ep" .host 5000 7).account
                ++ "/cont"
                ++ queryCanonical (some [("comp", "list")])))),
        some [("comp", "list")], false⟩ :=
  C1_shared_key_signing (storageAzureNew "cont" "acct" .shared [1, 2] [] 4 none "ep" .host 5000 7)
    [1, 2] "GET" "/cont" "Mon, 01 Jan 2024 00:00:00 GMT" (some [("comp", "list")])
    [("content-length", "0")] "0" 0 ⟨false, none, none⟩
    (fun k s => k ++ [s.length]) (fun l => toString l.length) rfl rfl rfl

/-! ## C2: dynamic bearer-token cache -/

/-- C2: in dynamic-authentication mode, a token fetch from the metadata
endpoint occurs if and only if the current time has reached the cached
expiry (the result is independent of the metadata oracle before expiry, and
the trace flag records the fetch); a successful fetch at time `T` returning
`expires_in = E` with configured client timeout `C` (seconds, i.e. the
client timeout in msec divided by 1000) stores cached expiry `T + E - 2C`;
afterwards the authorization header is `Bearer <cached token>`.  In
particular a call at time `T + E - 2C - 1` reuses the cached token while a
call at `T + E - 2C` refetches; and a freshly constructed driver has expiry
0 and no token, so it behaves as expired at any non-negative time. -/
theorem C2_auto_token_cache (this : StorageAzure) (verb path dateTime : String)
    (query : Option KvList) (header : KvList) (cl : String) (now : Int)
    (tokenResp : TokenResponse) (tok : String) (E : Int)
    (hm : List Nat → String → List Nat) (b64 : List Nat → String)
    (hkt : this.keyType = .auto)
    (hcl : kvGet header HTTP_HEADER_CONTENT_LENGTH = some cl) :
    (∀ cached, now < this.accessTokenExpirationTime → this.accessToken = some cached →
      storageAzureAuth this verb path query dateTime header now tokenResp hm b64 =
        .ok ⟨this, autoBearerHeader header this.host cached, query, false⟩) ∧
    (now ≥ this.accessTokenExpirationTime → tokenResp = ⟨true, some tok, some E⟩ →
      storageAzureAuth this verb path query dateTime header now tokenResp hm b64 =
        .ok ⟨{ this with
            accessToken := some tok
            accessTokenExpirationTime :=
              now + E - 2 * ((this.httpClientTimeoutMs / 1000 : Nat) : Int) },
          autoBearerHeader header this.host tok, query, true⟩) ∧
    (∀ tr2 : TokenResponse,
      storageAzureAuth
          { this with
            accessToken := some tok
            accessTokenExpirationTime :=
              now + E - 2 * ((this.httpClientTimeoutMs / 1000 : Nat) : Int) }
          verb path query dateTime header
          (now + E - 2 * ((this.httpClientTimeoutMs / 1000 : Nat) : Int) - 1) tr2 hm b64 =
        .ok ⟨{ this with
            accessToken := some tok
            accessTokenExpirationTime :=
              now + E - 2 * ((this.httpClientTimeoutMs / 1000 : Nat) : Int) },
          autoBearerHeader header this.host tok, query, false⟩) ∧
    (∀ (tok2 : String) (E2 : Int),
      storageAzureAuth
          { this with
            accessToken := some tok
            accessTokenExpirationTime :=
              now + E - 2 * ((this.httpClientTimeoutMs / 1000 : Nat) : Int) }
          verb path query dateTime header
          (now + E - 2 * ((this.httpClientTimeoutMs / 1000 : Nat) : Int))
          ⟨true, some tok2, some E2⟩ hm b64 =
        .ok ⟨{ this with
            accessToken := some tok2
            accessTokenExpirationTime :=
              (now + E - 2 * ((this.httpClientTimeoutMs / 1000 : Nat) : Int)) + E2
                - 2 * ((this.httpClientTimeoutMs / 1000 : Nat) : Int) },
          autoBearerHeader header this.host tok2, query, true⟩) ∧
    (∀ (c a : String) (bk : List Nat) (sk : KvList) (bs : Nat) (tg : Option String)
        (ep : String) (us : StorageAzureUriStyle) (tms rf : Nat),
      (storageAzureNew c a .auto bk sk bs tg ep us tms rf).accessTokenExpirationTime = 0 ∧
      (storageAzureNew c a .auto bk sk bs tg ep us tms rf).accessToken = none) := by
  have hreuse : ∀ (st : StorageAzure) (n : Int) (tr : TokenResponse) (cached : String),
      st.keyType = .auto → n < st.accessTokenExpirationTime → st.accessToken = some cached →
      storageAzureAuth st verb path query dateTime header n tr hm b64 =
        .ok ⟨st, autoBearerHeader header st.host cached, query, false⟩ := by
    intro st n tr cached hk hlt htok
    unfold storageAzureAuth autoBearerHeader
    rw [hcl]
    simp [hk, htok, not_le.mpr hlt]
  have hfetch : ∀ (st : StorageAzure) (n : Int) (t2 : String) (E2 : Int),
      st.keyType = .auto → n ≥ st.accessTokenExpirationTime →
      storageAzureAuth st verb path query dateTime header n ⟨true, some t2, some E2⟩ hm b64 =
        .ok ⟨{ st with
            accessToken := some t2
            accessTokenExpirationTime :=
              n + E2 - 2 * ((st.httpClientTimeoutMs / 1000 : Nat) : Int) },
          autoBearerHeader header st.host t2, query, true⟩ := by
    intro st n t2 E2 hk hge
    have harr : ((st.httpClientTimeoutMs / 1000 * 2 : Nat) : Int) =
        2 * ((st.httpClientTimeoutMs / 1000 : Nat) : Int) := by
      push_cast
      ring
    unfold storageAzureAuth autoBearerHeader
    rw [hcl]
    simp [hk, hge, harr]
  refine ⟨?_, ?_, ?_, ?_, ?_⟩
  · intro cached hlt htok
    exact hreuse this now tokenResp cached hkt hlt htok
  · intro hge hresp
    rw [hresp]
    exact hfetch this now tok E hkt hge
  · intro tr2
    refine hreuse _ _ tr2 tok hkt ?_ rfl
    show now + E - 2 * ((this.httpClientTimeoutMs / 1000 : Nat) : Int) - 1 <
      now + E - 2 * ((this.httpClientTimeoutMs / 1000 : Nat) : Int)
    omega
  · intro tok2 E2
    refine hfetch _ _ tok2 E2 hkt ?_
    show now + E - 2 * ((this.httpClientTimeoutMs / 1000 : Nat) : Int) ≥
      now + E - 2 * ((this.httpClientTimeoutMs / 1000 : Nat) : Int)
    exact le_refl _
  · intro c a bk sk bs tg ep us tms rf
    exact ⟨rfl, rfl⟩

/-- Witness for C2: a freshly constructed auto-mode driver fetches at time 10
and caches expiry `10 + 3600 - 2*5`. -/
theorem C2_auto_token_cache_witness :
    storageAzureAuth (storageAzureNew "cont" "acct" .auto [] [] 4 none "ep" .host 5000 7)
        "GET" "/cont" (some [("comp", "list")]) "D" [("content-length", "0")] 10
        ⟨true, some "TOK", some 3600⟩ (fun k s => k ++ [s.length]) (fun l => toString l.length) =
      .ok ⟨{ storageAzureNew "cont" "acct" .auto [] [] 4 none "ep" .host 5000 7 with
          accessToken := some "TOK"
          accessTokenExpirationTime :=
            10 + 3600 - 2 * (((storageAzureNew "cont" "acct" .auto [] [] 4 none "ep" .host
              5000 7).httpClientTimeoutMs / 1000 : Nat) : Int) },
        autoBearerHeader [("content-length", "0")]
          (storageAzureNew "cont" "acct" .auto [] [] 4 none "ep" .host 5000 7).host "TOK",
        some [("comp", "list")], true⟩ :=
  (C2_auto_token_cache (storageAzureNew "cont" "acct" .auto [] [] 4 none "ep" .host 5000 7)
    "GET" "/cont" "D" (some [("comp", "list")]) [("content-length", "0")] "0" 10
    ⟨true, some "TOK", some 3600⟩ "TOK" 3600
    (fun k s => k ++ [s.length]) (fun l => toString l.length) rfl rfl).2.1
    (by show (0 : Int) ≤ 10; norm_num) rfl

/-! ## C4: the recursive delete walker -/

namespace Azure

theorem deletePaths_append (a b : List DeleteEvent) :
    deletePaths (a ++ b) = deletePaths a ++ deletePaths b := by
  simp [deletePaths, List.filterMap_append]

theorem deletePaths_walk (root : String) :
    ∀ (entries : List StorageInfo) (pending : Option String),
      deletePaths (pathRemoveWalk root pending entries).2 =
        (entries.filter fun i => decide (i.type = StorageType.file)).map
          (fun i => root ++ "/" ++ i.name)
  | [], pending => by simp [pathRemoveWalk, deletePaths]
  | i :: rest, pending => by
    have hstep : pathRemoveWalk root pending (i :: rest) =
        ((pathRemoveWalk root (storageAzurePathRemoveCallback root pending i).1 rest).1,
          (storageAzurePathRemoveCallback root pending i).2 ++
            (pathRemoveWalk root (storageAzurePathRemoveCallback root pending i).1 rest).2) := rfl
    rw [hstep, deletePaths_append, deletePaths_walk root rest _]
    by_cases hf : i.type = StorageType.file
    · cases pending <;>
        simp [storageAzurePathRemoveCallback, hf, deletePaths, List.filter_cons]
    · cases pending <;>
        simp [storageAzurePathRemoveCallback, hf, deletePaths, List.filter_cons]

theorem depthOk_walk (root : String) :
    ∀ (entries : List StorageInfo) (pending : Option String) (tail : List DeleteEvent),
      deleteDepthOk (pathRemoveWalk root pending entries).1 tail = true →
      deleteDepthOk pending ((pathRemoveWalk root pending entries).2 ++ tail) = true
  | [], pending, tail => by
    intro h
    simpa [pathRemoveWalk] using h
  | i :: rest, pending, tail => by
    intro h
    by_cases hf : i.type = StorageType.file
    · cases pending with
      | none =>
        simp only [pathRemoveWalk, storageAzurePathRemoveCallback, hf, if_pos] at h ⊢
        simp only [List.nil_append, List.cons_append, deleteDepthOk]
        exact depthOk_walk root rest _ tail h
      | some p =>
        simp only [pathRemoveWalk, storageAzurePathRemoveCallback, hf, if_pos] at h ⊢
        simp only [List.append_assoc, List.cons_append, List.nil_append, deleteDepthOk,
          beq_self_eq_true, Bool.true_and]
        exact depthOk_walk root rest _ tail h
    · cases pending with
      | none =>
        simp only [pathRemoveWalk, storageAzurePathRemoveCallback, hf, if_neg] at h ⊢
        simp only [List.nil_append]
        exact depthOk_walk root rest _ tail h
      | some p =>
        simp only [pathRemoveWalk, storageAzurePathRemoveCallback, hf, if_neg] at h ⊢
        simp only [List.cons_append, List.nil_append, deleteDepthOk, beq_self_eq_true,
          Bool.true_and]
        exact depthOk_walk root rest _ tail h

theorem runDeleteEvents_ok (statuses : Nat → Nat)
    (hst : ∀ k, httpResponseCodeOk (statuses k) = true ∨ statuses k = 404) :
    ∀ (evs : List DeleteEvent) (k : Nat), runDeleteEvents statuses evs k = .ok ()
  | [], _ => rfl
  | .issueDelete p :: r, k => by
    simp [runDeleteEvents, runDeleteEvents_ok statuses hst r k]
  | .awaitDelete p :: r, k => by
    have hresp : storageAzureResponse (statuses k) true = .ok (statuses k) := by
      rcases hst k with h | h
      · exact storageAzureResponse_ok_of_ok _ _ h
      · rw [h]
        rfl
    simp [runDeleteEvents, hresp, runDeleteEvents_ok statuses hst r (k + 1)]

end Azure

/-- C4: for every recursive path-remove over a listing that visits `K`
file-kind entries, exactly `K` delete requests are issued, each for the
full path formed from the removal root and the entry's relative name, in
visit order; at most one delete is in flight at any time (each callback
first awaits and discards the previous delete's response and the final
outstanding delete is awaited after the walk, captured by the matched-depth
check on the trace); each await tolerates not-found, so the operation
succeeds for any assignment of success/not-found statuses to the deletes;
and the path-remove operation itself always returns `true`. -/
theorem C4_path_remove (path : String) (entries : List StorageInfo) (statuses : Nat → Nat) :
    (storageAzurePathRemove path entries).2 = true ∧
    deletePaths (storageAzurePathRemove path entries).1 =
      (entries.filter fun i => decide (i.type = StorageType.file)).map
        (fun i => (if path = "/" then "" else path) ++ "/" ++ i.name) ∧
    deleteDepthOk none (storageAzurePathRemove path entries).1 = true ∧
    ((∀ k, httpResponseCodeOk (statuses k) = true ∨ statuses k = 404) →
      runDeleteEvents statuses (storageAzurePathRemove path entries).1 0 = .ok ()) := by
  have hfinal : ∀ pf : Option String,
      deletePaths (match pf with | some p => [DeleteEvent.awaitDelete p] | none => []) = [] := by
    intro pf
    cases pf <;> rfl
  refine ⟨rfl, ?_, ?_, ?_⟩
  · simp only [storageAzurePathRemove, deletePaths_append, hfinal, List.append_nil]
    exact deletePaths_walk _ entries none
  · simp only [storageAzurePathRemove]
    apply depthOk_walk
    cases hpf : (pathRemoveWalk (if path = "/" then "" else path) none entries).1 with
    | none => simp [deleteDepthOk]
    | some p => simp [deleteDepthOk]
  · intro hst
    exact runDeleteEvents_ok statuses hst _ 0

/-- Witness for C4: a three-entry walk (two files, one path) with the first
delete answered not-found and the second with success. -/
theorem C4_path_remove_witness :
    (storageAzurePathRemove "/p"
        [⟨"a.txt", 2, true, .file, 0, 0⟩, ⟨"d", 2, true, .path, 0, 0⟩,
          ⟨"b.txt", 2, true, .file, 0, 0⟩]).2 = true ∧
    deletePaths (storageAzurePathRemove "/p"
        [⟨"a.txt", 2, true, .file, 0, 0⟩, ⟨"d", 2, true, .path, 0, 0⟩,
          ⟨"b.txt", 2, true, .file, 0, 0⟩]).1 =
      ([⟨"a.txt", 2, true, .file, 0, 0⟩, ⟨"d", 2, true, .path, 0, 0⟩,
          ⟨"b.txt", 2, true, .file, 0, 0⟩].filter
            fun i : StorageInfo => decide (i.type = StorageType.file)).map
        (fun i => (if ("/p" : String) = "/" then "" else "/p") ++ "/" ++ i.name) ∧
    deleteDepthOk none (storageAzurePathRemove "/p"
        [⟨"a.txt", 2, true, .file, 0, 0⟩, ⟨"d", 2, true, .path, 0, 0⟩,
          ⟨"b.txt", 2, true, .file, 0, 0⟩]).1 = true ∧
    runDeleteEvents (fun k => if k = 0 then 404 else 202)
        (storageAzurePathRemove "/p"
          [⟨"a.txt", 2, true, .file, 0, 0⟩, ⟨"d", 2, true, .path, 0, 0⟩,
            ⟨"b.txt", 2, true, .file, 0, 0⟩]).1 0 = .ok () := by
  have h := C4_path_remove "/p"
    [⟨"a.txt", 2, true, .file, 0, 0⟩, ⟨"d", 2, true, .path, 0, 0⟩,
      ⟨"b.txt", 2, true, .file, 0, 0⟩] (fun k => if k = 0 then 404 else 202)
  refine ⟨h.1, h.2.1, h.2.2.1, h.2.2.2 ?_⟩
  intro k
  by_cases hk : k = 0
  · right
    simp [hk]
  · left
    simp only [if_neg hk]
    rfl

/-! ## C3: the listing pipeline -/

namespace Azure

theorem listLoop_false_eq (conv : ExternalConv) (basePrefix : String) (level : Nat)
    (p : ListPage) (rest : List ListPage) (q : KvList) :
    listLoop conv basePrefix level (p :: rest) q false =
      .issue q :: listLoop conv basePrefix level (p :: rest) q true := by
  simp [listLoop]

theorem listDepthOk_entries (infos : List StorageInfo) (tail : List ListEvent) (n : Nat) :
    listDepthOk (infos.map .entry ++ tail) n = listDepthOk tail n := by
  induction infos with
  | nil => rfl
  | cons i rest ih => simpa [listDepthOk] using ih

theorem listDepthOk_entries_nil (infos : List StorageInfo) (n : Nat) :
    listDepthOk (infos.map .entry) n = true := by
  induction infos with
  | nil => rfl
  | cons i rest ih => simpa [listDepthOk] using ih

theorem countP_isIssue_entry (infos : List StorageInfo) :
    List.countP (isIssue ∘ ListEvent.entry) infos = 0 := by
  induction infos with
  | nil => rfl
  | cons i rest ih => simp [List.countP_cons, isIssue, Function.comp, ih]

theorem filterMap_entryOf_entry (infos : List StorageInfo) :
    List.filterMap (entryOf ∘ ListEvent.entry) infos = infos := by
  induction infos with
  | nil => rfl
  | cons i rest ih => simp [List.filterMap_cons, entryOf, Function.comp, ih]

theorem issueCount_entries (infos : List StorageInfo) : issueCount (infos.map .entry) = 0 := by
  induction infos with
  | nil => rfl
  | cons i rest ih => simp [issueCount, List.countP_cons, isIssue, ih]

theorem entryInfos_entries (infos : List StorageInfo) : entryInfos (infos.map .entry) = infos := by
  induction infos with
  | nil => rfl
  | cons i rest ih => simpa [entryInfos, List.filterMap_cons, entryOf] using ih

theorem listDepthOk_loop (conv : ExternalConv) (basePrefix : String) (level : Nat) :
    ∀ (pages : List ListPage) (q : KvList),
      listDepthOk (listLoop conv basePrefix level pages q true) 1 = true
  | [], _ => rfl
  | p :: rest, q => by
    by_cases hm : p.nextMarker = ""
    · simp [listLoop, hm, listDepthOk, pageEntryEvents, listDepthOk_entries,
        listDepthOk_entries_nil]
    · simp [listLoop, hm, listDepthOk, pageEntryEvents, listDepthOk_entries,
        listDepthOk_loop conv basePrefix level rest (kvPut q AZURE_QUERY_MARKER p.nextMarker)]

theorem listLoop_spec (conv : ExternalConv) (basePrefix : String) (level : Nat) :
    ∀ (pages : List ListPage) (q : KvList), markersOk pages = true →
      listLoop conv basePrefix level pages q true = specListTail conv basePrefix level pages q
  | [], q => by
    intro h
    simp [markersOk] at h
  | [p], q => by
    intro h
    have hm : p.nextMarker = "" := by simpa [markersOk] using h
    simp [listLoop, hm, specListTail]
  | p :: p2 :: rest, q => by
    intro h
    have h' := h
    simp only [markersOk, Bool.and_eq_true, bne_iff_ne, ne_eq] at h'
    have hm : ¬ p.nextMarker = "" := h'.1
    have hrest : markersOk (p2 :: rest) = true := h'.2
    rw [listLoop, specListTail, if_neg hm, if_neg hm,
      listLoop_spec conv basePrefix level (p2 :: rest)
        (kvPut q AZURE_QUERY_MARKER p.nextMarker) hrest]
    simp

theorem issueCount_append (a b : List ListEvent) :
    issueCount (a ++ b) = issueCount a + issueCount b := by
  simp [issueCount, List.countP_append]

theorem entryInfos_append (a b : List ListEvent) :
    entryInfos (a ++ b) = entryInfos a ++ entryInfos b := by
  simp [entryInfos, List.filterMap_append]

theorem issueCount_loop (conv : ExternalConv) (basePrefix : String) (level : Nat) :
    ∀ (pages : List ListPage) (q : KvList), markersOk pages = true →
      issueCount (listLoop conv basePrefix level pages q true) = pages.length - 1
  | [], q => by
    intro h
    simp [markersOk] at h
  | [p], q => by
    intro h
    have hm : p.nextMarker = "" := by simpa [markersOk] using h
    simp [listLoop, hm, issueCount, List.countP_cons, List.countP_append, pageEntryEvents,
      isIssue, countP_isIssue_entry]
  | p :: p2 :: rest, q => by
    intro h
    have h' := h
    simp only [markersOk, Bool.and_eq_true, bne_iff_ne, ne_eq] at h'
    have ih := issueCount_loop conv basePrefix level (p2 :: rest)
      (kvPut q AZURE_QUERY_MARKER p.nextMarker) h'.2
    rw [listLoop]
    simp only [issueCount] at ih ⊢
    simp [h'.1, List.countP_cons, List.countP_append, pageEntryEvents, isIssue,
      countP_isIssue_entry, ih]

theorem entryInfos_loop (conv : ExternalConv) (basePrefix : String) (level : Nat) :
    ∀ (pages : List ListPage) (q : KvList), markersOk pages = true →
      entryInfos (listLoop conv basePrefix level pages q true) =
        (pages.map (pageInfos conv basePrefix level)).flatten
  | [], q => by
    intro h
    simp [markersOk] at h
  | [p], q => by
    intro h
    have hm : p.nextMarker = "" := by simpa [markersOk] using h
    simp [listLoop, hm, entryInfos, List.filterMap_cons, List.filterMap_append,
      pageEntryEvents, entryOf, filterMap_entryOf_entry]
  | p :: p2 :: rest, q => by
    intro h
    have h' := h
    simp only [markersOk, Bool.and_eq_true, bne_iff_ne, ne_eq] at h'
    have ih := entryInfos_loop conv basePrefix level (p2 :: rest)
      (kvPut q AZURE_QUERY_MARKER p.nextMarker) h'.2
    rw [listLoop]
    simp only [entryInfos] at ih ⊢
    simp [h'.1, List.filterMap_cons, List.filterMap_append, pageEntryEvents, entryOf,
      filterMap_entryOf_entry, ih]

end Azure

/-- C3: for every listing over `N` pages where pages `1..N-1` carry a
non-empty continuation marker and page `N` carries none, the listing engine
invokes the per-entry callback exactly once per server-returned entry,
processing pages in continuation order and, within each page, all prefix
entries before all blob entries in server order (the entry-sequence
equation); it issues exactly `N` requests with at most one outstanding at
any time (the depth check), issuing the request for page `k+1` — with the
marker merged into the query — before processing page `k`'s entries (the
trace equation against the per-claim spec trace), and terminates when a
page yields no marker. -/
theorem C3_listing_pipeline (conv : ExternalConv) (path : String) (level : Nat)
    (expressionPrefix : Option String) (recurse : Bool) (pages : List ListPage)
    (hM : markersOk pages = true) :
    storageAzureListInternal conv path level expressionPrefix recurse pages =
      .issue (listBaseQuery recurse (listQueryPrefix (basePrefixOf path) expressionPrefix)) ::
        specListTail conv (basePrefixOf path) level pages
          (listBaseQuery recurse (listQueryPrefix (basePrefixOf path) expressionPrefix)) ∧
    issueCount (storageAzureListInternal conv path level expressionPrefix recurse pages) =
      pages.length ∧
    entryInfos (storageAzureListInternal conv path level expressionPrefix recurse pages) =
      (pages.map (pageInfos conv (basePrefixOf path) level)).flatten ∧
    listDepthOk (storageAzureListInternal conv path level expressionPrefix recurse pages) 0 =
      true := by
  cases pages with
  | nil => simp [markersOk] at hM
  | cons p rest =>
    have hsplit := listLoop_false_eq conv (basePrefixOf path) level p rest
      (listBaseQuery recurse (listQueryPrefix (basePrefixOf path) expressionPrefix))
    refine ⟨?_, ?_, ?_, ?_⟩
    · simp only [storageAzureListInternal]
      rw [hsplit, listLoop_spec conv (basePrefixOf path) level (p :: rest)
        (listBaseQuery recurse (listQueryPrefix (basePrefixOf path) expressionPrefix)) hM]
    · simp only [storageAzureListInternal]
      rw [hsplit]
      have hc := issueCount_loop conv (basePrefixOf path) level (p :: rest)
        (listBaseQuery recurse (listQueryPrefix (basePrefixOf path) expressionPrefix)) hM
      simp only [issueCount, List.countP_cons, isIssue] at hc ⊢
      simp [hc]
    · simp only [storageAzureListInternal]
      rw [hsplit]
      have he := entryInfos_loop conv (basePrefixOf path) level (p :: rest)
        (listBaseQuery recurse (listQueryPrefix (basePrefixOf path) expressionPrefix)) hM
      simp only [entryInfos, List.filterMap_cons, entryOf] at he ⊢
      simp [he]
    · simp only [storageAzureListInternal]
      rw [hsplit, listDepthOk]
      simp [listDepthOk_loop]

/-- Witness for C3: a two-page listing (page 1 with a prefix entry, a blob
entry and marker `M1`; page 2 with a blob entry and no marker). -/
theorem C3_listing_pipeline_witness :
    storageAzureListInternal ⟨fun s => s.length, fun _ => 0⟩ "/p" 3 none false
        [⟨["p/sub/"], [("p/a.txt", "5", "LM1")], "M1"⟩, ⟨[], [("p/b.txt", "6", "LM2")], ""⟩] =
      .issue (listBaseQuery false (listQueryPrefix (basePrefixOf "/p") none)) ::
        specListTail ⟨fun s => s.length, fun _ => 0⟩ (basePrefixOf "/p") 3
          [⟨["p/sub/"], [("p/a.txt", "5", "LM1")], "M1"⟩, ⟨[], [("p/b.txt", "6", "LM2")], ""⟩]
          (listBaseQuery false (listQueryPrefix (basePrefixOf "/p") none)) ∧
    issueCount (storageAzureListInternal ⟨fun s => s.length, fun _ => 0⟩ "/p" 3 none false
        [⟨["p/sub/"], [("p/a.txt", "5", "LM1")], "M1"⟩, ⟨[], [("p/b.txt", "6", "LM2")], ""⟩]) =
      [⟨["p/sub/"], [("p/a.txt", "5", "LM1")], "M1"⟩,
        (⟨[], [("p/b.txt", "6", "LM2")], ""⟩ : ListPage)].length ∧
    entryInfos (storageAzureListInternal ⟨fun s => s.length, fun _ => 0⟩ "/p" 3 none false
        [⟨["p/sub/"], [("p/a.txt", "5", "LM1")], "M1"⟩, ⟨[], [("p/b.txt", "6", "LM2")], ""⟩]) =
      ([⟨["p/sub/"], [("p/a.txt", "5", "LM1")], "M1"⟩,
          (⟨[], [("p/b.txt", "6", "LM2")], ""⟩ : ListPage)].map
        (pageInfos ⟨fun s => s.length, fun _ => 0⟩ (basePrefixOf "/p") 3)).flatten ∧
    listDepthOk (storageAzureListInternal ⟨fun s => s.length, fun _ => 0⟩ "/p" 3 none false
        [⟨["p/sub/"], [("p/a.txt", "5", "LM1")], "M1"⟩, ⟨[], [("p/b.txt", "6", "LM2")], ""⟩]) 0 =
      true :=
  C3_listing_pipeline ⟨fun s => s.length, fun _ => 0⟩ "/p" 3 none false
    [⟨["p/sub/"], [("p/a.txt", "5", "LM1")], "M1"⟩, ⟨[], [("p/b.txt", "6", "LM2")], ""⟩]
    (by decide)
